import Mathlib

/-!
# Library-management data-access layer: shallow embedding

This file embeds the record mapper (`model.py`), the data-access gateway
(`repository.py`) and the book controller (`controller.py`) of the
library-management application, and proves the specified properties of the
query/mapping contract.

The relational storage is modelled as a `DBState` holding one ordered list
of rows per table (`book`, `author`, `book_author`, `publisher`, `members`,
`loan`, `book_copy`) together with the auto-increment counter of the `book`
table.  Each gateway method takes a `dbFail : Bool` flag standing for
"the underlying query execution raised": the Python code wraps every
execution in `try/except`, and the flag selects which branch runs.
SQL joins are modelled as nested iteration with `ON`-condition filtering,
`LEFT JOIN` as `leftJoin`, and `SELECT DISTINCT` as `List.dedup`.

Python's runtime checks matter here: the `Book` dataclass generates an
`__init__` with exactly six parameters, so calls with a different arity or
with unexpected keyword arguments raise `TypeError`.  `bookFromArgs` and
`bookFromKwargs` model those constructor-call semantics.
-/

/-- A Python runtime value as it occurs in this program's result rows and
constructor calls: integers, strings, or `None` (from SQL `NULL`). -/
inductive PyValue where
  | vint (n : Int)
  | vstr (s : String)
  | vnone
deriving DecidableEq

/-- Python exceptions raised inside the embedded code paths. -/
inductive PyErr where
  | typeError
deriving DecidableEq

/-- The generic domain error (`RuntimeError(msg)`) raised by the gateway's
write operations on execution failure. -/
inductive RepoErr where
  | runtimeError (msg : String)
deriving DecidableEq

/-- `model.py`: the `Book` dataclass.  Fields, in declaration order:
`id, title, isbn, pub_year, genre_id, publisher_id`.  It has no `author`
and no `year_published` field. -/
structure Book where
  id : Int
  title : String
  isbn : String
  pub_year : Int
  genre_id : Int
  publisher_id : Int
deriving DecidableEq

/-- `model.py`: the `Publisher` dataclass. -/
structure Publisher where
  id : Int
  name : String
  address : String
  phone : String
  email : String
deriving DecidableEq

/-- `model.py`: the `Member` dataclass. -/
structure Member where
  id : Int
  first_name : String
  last_name : String
  address : String
  email : String
  membership_date : String
deriving DecidableEq

/-- Positional construction `Book(*args)`.  The dataclass-generated
`__init__` takes exactly six parameters, so any other arity raises
`TypeError`.  Dataclasses do not check annotation types at runtime, but
every six-element argument list this repository builds is typed by the
schema columns `(book_id, title, isbn, pub_year, genre_id, publisher_id)`,
so extracting the fields by position is exact. -/
def bookFromArgs : List PyValue → Except PyErr Book
  | [PyValue.vint i, PyValue.vstr t, PyValue.vstr n, PyValue.vint y,
     PyValue.vint g, PyValue.vint p] => Except.ok ⟨i, t, n, y, g, p⟩
  | _ => Except.error PyErr.typeError

/-- The parameter names of the `Book` dataclass `__init__`. -/
def bookFieldNames : List String :=
  ["id", "title", "isbn", "pub_year", "genre_id", "publisher_id"]

/-- Look up a keyword argument by name (first binding). -/
def lookupKw (kwargs : List (String × PyValue)) (k : String) : Option PyValue :=
  (kwargs.find? (fun kv => kv.1 == k)).map (fun kv => kv.2)

/-- Keyword construction `Book(k1=v1, ..., kn=vn)`.  A keyword that is not a
parameter of the generated `__init__` raises `TypeError` (unexpected keyword
argument), as does a missing parameter. -/
def bookFromKwargs (kwargs : List (String × PyValue)) : Except PyErr Book :=
  if kwargs.any (fun kv => !(bookFieldNames.contains kv.1)) then
    Except.error PyErr.typeError
  else
    match lookupKw kwargs "id", lookupKw kwargs "title", lookupKw kwargs "isbn",
          lookupKw kwargs "pub_year", lookupKw kwargs "genre_id",
          lookupKw kwargs "publisher_id" with
    | some (PyValue.vint i), some (PyValue.vstr t), some (PyValue.vstr n),
      some (PyValue.vint y), some (PyValue.vint g), some (PyValue.vint p) =>
        Except.ok ⟨i, t, n, y, g, p⟩
    | _, _, _, _, _, _ => Except.error PyErr.typeError

/-- A row of the `book` table: columns
`(book_id, title, isbn, pub_year, genre_id, publisher_id)`. -/
structure BookRow where
  book_id : Int
  title : String
  isbn : String
  pub_year : Int
  genre_id : Int
  publisher_id : Int
deriving DecidableEq

/-- A row of the `author` table. -/
structure AuthorRow where
  author_id : Int
  name : String
deriving DecidableEq

/-- A row of the `book_author` many-to-many join table. -/
structure BookAuthorRow where
  book_id : Int
  author_id : Int
deriving DecidableEq

/-- A row of the `publisher` table. -/
structure PublisherRow where
  publisher_id : Int
  name : String
  address : String
  phone : String
  email : String
deriving DecidableEq

/-- A row of the `members` table. -/
structure MemberRow where
  member_id : Int
  first_name : String
  last_name : String
  address : String
  email : String
  membership_date : String
deriving DecidableEq

/-- A row of the `loan` table; `return_date` is nullable. -/
structure LoanRow where
  loan_id : Int
  copy_id : Int
  member_id : Int
  staff_id : Int
  librarian_id : Int
  issue_date : String
  due_date : String
  return_date : Option String
deriving DecidableEq

/-- A row of the `book_copy` table. -/
structure BookCopyRow where
  copy_id : Int
  book_id : Int
deriving DecidableEq

/-- The relational database state: one ordered row list per table, plus the
auto-increment counter that generates `book.book_id` on insert. -/
structure DBState where
  book : List BookRow
  author : List AuthorRow
  book_author : List BookAuthorRow
  publisher : List PublisherRow
  members : List MemberRow
  loan : List LoanRow
  book_copy : List BookCopyRow
  next_book_id : Int
deriving DecidableEq

/-- SQL `LEFT JOIN`: every left row appears; rows with no `ON`-match are
padded with `none` on the right. -/
def leftJoin (xs : List α) (ys : List β) (cond : α → β → Bool) :
    List (α × Option β) :=
  xs.flatMap (fun x =>
    let ms := ys.filter (cond x)
    if ms.isEmpty then [(x, none)] else ms.map (fun y => (x, some y)))

/-- One result row of the `fetchall_books` query
`SELECT b.book_id, b.title, a.name AS author, b.isbn, b.pub_year,
b.genre_id, b.publisher_id FROM book b LEFT JOIN book_author ba ... LEFT
JOIN author a ...` — seven columns, `author` nullable. -/
structure JoinedBookRow where
  book_id : Int
  title : String
  author : Option String
  isbn : String
  pub_year : Int
  genre_id : Int
  publisher_id : Int
deriving DecidableEq

/-- A nullable string column as a Python value. -/
def pyOfOptStr : Option String → PyValue
  | some s => PyValue.vstr s
  | none => PyValue.vnone

/-- The seven positional values of a `fetchall_books` result row, as passed
to `Book(row[0], row[1], row[2], row[3], row[4], row[5], row[6])`. -/
def joinedRowArgs (r : JoinedBookRow) : List PyValue :=
  [PyValue.vint r.book_id, PyValue.vstr r.title, pyOfOptStr r.author,
   PyValue.vstr r.isbn, PyValue.vint r.pub_year, PyValue.vint r.genre_id,
   PyValue.vint r.publisher_id]

/-- The six positional values of a plain `book`-table row, as passed to
`Book(*row)`. -/
def bookRowArgs (r : BookRow) : List PyValue :=
  [PyValue.vint r.book_id, PyValue.vstr r.title, PyValue.vstr r.isbn,
   PyValue.vint r.pub_year, PyValue.vint r.genre_id,
   PyValue.vint r.publisher_id]

/-- Result rows of the `fetchall_books` query: `book` LEFT JOIN
`book_author` on `book_id`, then LEFT JOIN `author` on `author_id` (a null
`book_author` side matches no author), projected to the seven selected
columns. -/
def fetchallBooksRows (s : DBState) : List JoinedBookRow :=
  (leftJoin (leftJoin s.book s.book_author (fun b ba => b.book_id == ba.book_id))
      s.author
      (fun bba a =>
        match bba.2 with
        | some ba => ba.author_id == a.author_id
        | none => false)).map
    (fun r =>
      ⟨r.1.1.book_id, r.1.1.title, r.2.map (fun a => a.name), r.1.1.isbn,
       r.1.1.pub_year, r.1.1.genre_id, r.1.1.publisher_id⟩)

/-- The list comprehension `[Book(...) for row in results]`: build a `Book`
from every row in order; the first `TypeError` aborts the whole
comprehension with that exception. -/
def mapBooks : List (List PyValue) → Except PyErr (List Book)
  | [] => Except.ok []
  | args :: rest =>
    match bookFromArgs args with
    | Except.error e => Except.error e
    | Except.ok b =>
      match mapBooks rest with
      | Except.error e => Except.error e
      | Except.ok bs => Except.ok (b :: bs)

/-- Result rows of the `get_books_by_author` query: inner join of `book`,
`book_author` and `author` filtered on `a.name = author_name`, projected to
the six `book` columns. -/
def booksByAuthorRows (s : DBState) (author_name : String) : List BookRow :=
  s.book.flatMap (fun b =>
    s.book_author.flatMap (fun ba =>
      if b.book_id == ba.book_id then
        s.author.filterMap (fun a =>
          if ba.author_id == a.author_id && a.name == author_name then some b
          else none)
      else []))

/-- One result row of the `list_all_members_by_book` query:
`SELECT m.first_name, m.last_name, b.title, l.issue_date, l.due_date,
l.return_date`. -/
structure MemberLoanRow where
  first_name : String
  last_name : String
  title : String
  issue_date : String
  due_date : String
  return_date : Option String
deriving DecidableEq

/-- Result rows of the `list_all_members_by_book` join: `members` JOIN
`loan` on `member_id` JOIN `book_copy` on `copy_id` JOIN `book` on
`book_id`, filtered on `b.book_id = bid`, projected to the six selected
columns. -/
def membersByBookRows (s : DBState) (bid : Int) : List MemberLoanRow :=
  s.members.flatMap (fun m =>
    s.loan.flatMap (fun l =>
      if m.member_id == l.member_id then
        s.book_copy.flatMap (fun bc =>
          if l.copy_id == bc.copy_id then
            s.book.filterMap (fun b =>
              if bc.book_id == b.book_id && b.book_id == bid then
                some ⟨m.first_name, m.last_name, b.title, l.issue_date,
                      l.due_date, l.return_date⟩
              else none)
          else [])
      else []))

namespace Repository

/-- `repository.py  Repository.fetchall_books`: run the three-table left
join and map each seven-column row through
`Book(row[0], ..., row[6])`; any exception is caught and `[]` returned.
`dbFail = true` means `db.fetch_results` itself raised. -/
def fetchall_books (dbFail : Bool) (s : DBState) : List Book :=
  if dbFail then []
  else
    match mapBooks ((fetchallBooksRows s).map joinedRowArgs) with
    | Except.ok bs => bs
    | Except.error _ => []

/-- `repository.py  Repository.add_book`: `INSERT INTO book (title, isbn,
pub_year, genre_id, publisher_id) VALUES (...)` — `book.id` is not among
the insert columns; storage assigns `next_book_id`.  On execution failure
the exception is caught and `RuntimeError("Failed to add book.")` raised. -/
def add_book (dbFail : Bool) (s : DBState) (book : Book) :
    Except RepoErr DBState :=
  if dbFail then Except.error (RepoErr.runtimeError "Failed to add book.")
  else Except.ok { s with
    book := s.book ++ [⟨s.next_book_id, book.title, book.isbn, book.pub_year,
                        book.genre_id, book.publisher_id⟩],
    next_book_id := s.next_book_id + 1 }

/-- `repository.py  Repository.delete_book_by_id`: `DELETE FROM book WHERE
book_id = %s`; on execution failure raises
`RuntimeError("Failed to delete book.")`. -/
def delete_book_by_id (dbFail : Bool) (s : DBState) (book_id : Int) :
    Except RepoErr DBState :=
  if dbFail then Except.error (RepoErr.runtimeError "Failed to delete book.")
  else Except.ok { s with book := s.book.filter (fun r => !(r.book_id == book_id)) }

/-- `repository.py  Repository.update_book`: `UPDATE book SET title, isbn,
pub_year, genre_id, publisher_id WHERE book_id = book.id`; on execution
failure raises `RuntimeError("Failed to update book.")`. -/
def update_book (dbFail : Bool) (s : DBState) (book : Book) :
    Except RepoErr DBState :=
  if dbFail then Except.error (RepoErr.runtimeError "Failed to update book.")
  else Except.ok { s with
    book := s.book.map (fun r =>
      if r.book_id == book.id then
        ⟨r.book_id, book.title, book.isbn, book.pub_year, book.genre_id,
         book.publisher_id⟩
      else r) }

/-- `repository.py  Repository.list_book_by_name`: `SELECT book_id, title,
isbn, pub_year, genre_id, publisher_id FROM book WHERE title = %s`, then
`Book(*result[0]) if result else None`; any exception is caught and `None`
returned. -/
def list_book_by_name (dbFail : Bool) (s : DBState) (book_name : String) :
    Option Book :=
  if dbFail then none
  else
    match s.book.filter (fun r => r.title == book_name) with
    | [] => none
    | r :: _ =>
      match bookFromArgs (bookRowArgs r) with
      | Except.ok b => some b
      | Except.error _ => none

/-- `repository.py  Repository.get_books_by_author`: inner-join lookup by
exact author name; rows mapped through `Book(*row)`; any exception is
caught and `[]` returned. -/
def get_books_by_author (dbFail : Bool) (s : DBState) (author_name : String) :
    List Book :=
  if dbFail then []
  else
    match mapBooks ((booksByAuthorRows s author_name).map bookRowArgs) with
    | Except.ok bs => bs
    | Except.error _ => []

/-- `repository.py  Repository.get_publisher`: full-table read of
`publisher`, rows mapped through `Publisher(*row)`; errors caught, `[]`
returned. -/
def get_publisher (dbFail : Bool) (s : DBState) : List Publisher :=
  if dbFail then []
  else s.publisher.map (fun r => ⟨r.publisher_id, r.name, r.address, r.phone, r.email⟩)

/-- `repository.py  Repository.get_all_members`: full-table read of
`members`, rows mapped through `Member(*row)`; errors caught, `[]`
returned. -/
def get_all_members (dbFail : Bool) (s : DBState) : List Member :=
  if dbFail then []
  else s.members.map (fun r =>
    ⟨r.member_id, r.first_name, r.last_name, r.address, r.email,
     r.membership_date⟩)

/-- `repository.py  Repository.list_all_loan`: full-table read of `loan`
returned as raw tuples; errors caught, `[]` returned. -/
def list_all_loan (dbFail : Bool) (s : DBState) : List LoanRow :=
  if dbFail then [] else s.loan

/-- `repository.py  Repository.list_all_members_by_book`: resolve the title
through `list_book_by_name`; if no book is found return `[]`, otherwise run
the four-table join filtered on the resolved `book.id`; errors caught, `[]`
returned. -/
def list_all_members_by_book (dbFail : Bool) (s : DBState) (book_name : String) :
    List MemberLoanRow :=
  match list_book_by_name dbFail s book_name with
  | none => []
  | some book => if dbFail then [] else membersByBookRows s book.id

/-- `repository.py  Repository.list_members_borrowed_at_least_one_book`:
`SELECT DISTINCT m.member_id, m.first_name, m.last_name FROM members m JOIN
loan l ON m.member_id = l.member_id`; errors caught, `[]` returned. -/
def list_members_borrowed_at_least_one_book (dbFail : Bool) (s : DBState) :
    List (Int × String × String) :=
  if dbFail then []
  else
    (s.members.flatMap (fun m =>
      s.loan.filterMap (fun l =>
        if m.member_id == l.member_id then
          some (m.member_id, m.first_name, m.last_name)
        else none))).dedup

end Repository

/-- Modelled from the spec: the repository has no fetch-by-id operation
(only `delete_book_by_id` takes an id), yet the spec's testable property
reads "Deleting a book by id then fetching by that id returns not found".
Faithful to those words: return the first stored `book` row whose primary
key equals the id, or "not found" (`none`) when no row matches. -/
def find_book_by_id (s : DBState) (bid : Int) : Option BookRow :=
  (s.book.filter (fun r => r.book_id == bid)).head?

/-- Exceptions a controller call can leave uncaught: a Python exception
escaping `Book(...)` construction, or the controller's own re-raised
`RuntimeError`. -/
inductive CtrlErr where
  | pyErr (e : PyErr)
  | runtimeError (msg : String)
deriving DecidableEq

/-- Observable outcome of one controller call: the database state after the
call, every `Book` value the controller passed to the repository, and the
exception that escaped to the caller, if any. -/
structure CtrlResult where
  newState : DBState
  passedBooks : List Book
  error : Option CtrlErr
deriving DecidableEq

/-- The keyword arguments of the `Book(...)` call in
`controller.py  BookController.add_book`, in source order:
`id=0, title=title, author=author, publisher_id=publisher, isbn=isbn,
year_published=year_published, genre_id=1`. -/
def addBookKwargs (title author : String) (publisher : Int) (isbn : String)
    (year_published : Int) : List (String × PyValue) :=
  [("id", PyValue.vint 0), ("title", PyValue.vstr title),
   ("author", PyValue.vstr author), ("publisher_id", PyValue.vint publisher),
   ("isbn", PyValue.vstr isbn), ("year_published", PyValue.vint year_published),
   ("genre_id", PyValue.vint 1)]

/-- The keyword arguments of the `Book(...)` call in
`controller.py  BookController.update_book`, in source order:
`id=bid, title=title, author=author, publisher_id=publisher_id, isbn=isbn,
year_published=year, genre_id=1`. -/
def updateBookKwargs (bid : Int) (title author : String) (publisher_id : Int)
    (isbn : String) (year : Int) : List (String × PyValue) :=
  [("id", PyValue.vint bid), ("title", PyValue.vstr title),
   ("author", PyValue.vstr author), ("publisher_id", PyValue.vint publisher_id),
   ("isbn", PyValue.vstr isbn), ("year_published", PyValue.vint year),
   ("genre_id", PyValue.vint 1)]

namespace BookController

/-- `controller.py  BookController.add_book`: construct the `Book` from the
keyword arguments (outside the `try` block — a construction exception
propagates to the caller and the repository is never invoked), then call
`Repository.add_book`; a repository failure is caught and re-raised as
`RuntimeError("Failed to add book.")`. -/
def add_book (dbFail : Bool) (s : DBState) (title author : String)
    (publisher : Int) (isbn : String) (year_published : Int) : CtrlResult :=
  match bookFromKwargs (addBookKwargs title author publisher isbn year_published) with
  | Except.error e => ⟨s, [], some (CtrlErr.pyErr e)⟩
  | Except.ok book =>
    match Repository.add_book dbFail s book with
    | Except.ok s2 => ⟨s2, [book], none⟩
    | Except.error _ => ⟨s, [book], some (CtrlErr.runtimeError "Failed to add book.")⟩

/-- `controller.py  BookController.update_book`: construct the `Book` from
the keyword arguments (outside the `try` block), then call
`Repository.update_book`; a repository failure is caught and re-raised as
`RuntimeError("Failed to update book.")`. -/
def update_book (dbFail : Bool) (s : DBState) (bid : Int)
    (title author : String) (publisher_id : Int) (isbn : String) (year : Int) :
    CtrlResult :=
  match bookFromKwargs (updateBookKwargs bid title author publisher_id isbn year) with
  | Except.error e => ⟨s, [], some (CtrlErr.pyErr e)⟩
  | Except.ok book =>
    match Repository.update_book dbFail s book with
    | Except.ok s2 => ⟨s2, [book], none⟩
    | Except.error _ => ⟨s, [book], some (CtrlErr.runtimeError "Failed to update book.")⟩

end BookController

/-- An empty database (every table empty, auto-increment counter at 1). -/
def emptyDB : DBState := ⟨[], [], [], [], [], [], [], 1⟩

/-- A state with a single book row and no authors. -/
def c1state : DBState := { emptyDB with book := [⟨1, "Dune", "111", 1965, 1, 1⟩] }

theorem bookFromArgs_joinedRowArgs (r : JoinedBookRow) :
    bookFromArgs (joinedRowArgs r) = Except.error PyErr.typeError := by
  rcases r with ⟨i, t, a, n, y, g, p⟩
  cases a <;> rfl

theorem bookFromArgs_bookRowArgs (r : BookRow) :
    bookFromArgs (bookRowArgs r) =
      Except.ok ⟨r.book_id, r.title, r.isbn, r.pub_year, r.genre_id,
                 r.publisher_id⟩ := rfl

/-- C1: the claim says `fetchall_books` maps each result row of the
three-table left join into one `Book` record.  The code is wrong: the query
yields seven columns but the `Book` dataclass `__init__` takes six
parameters, so `Book(row[0], ..., row[6])` raises `TypeError` on every row;
the exception is caught and `[]` returned.  On the concrete state with one
book the query produces one row, yet the method returns `[]`; in fact it
returns `[]` on every state and either failure mode. -/
theorem C1_fetchall_books_always_empty :
    (fetchallBooksRows c1state).length = 1 ∧
    Repository.fetchall_books false c1state = [] ∧
    ∀ (dbFail : Bool) (s : DBState), Repository.fetchall_books dbFail s = [] := by
  refine ⟨rfl, rfl, ?_⟩
  intro dbFail s
  cases dbFail with
  | true => rfl
  | false =>
    unfold Repository.fetchall_books
    simp only [Bool.false_eq_true, if_false]
    cases h : fetchallBooksRows s with
    | nil => simp [h, mapBooks]
    | cons r rs =>
      simp [mapBooks, bookFromArgs_joinedRowArgs]

/-- C2: both controller methods construct the `Book` with the keyword
arguments `author` and `year_published`, which are not fields of the
dataclass, so construction raises `TypeError` before the repository is
invoked: no book value is ever passed on, the exception escapes to the
caller, and the database state is unchanged — in particular no insert is
ever performed. -/
theorem C2_controller_construction_raises (dbFail : Bool) (s : DBState)
    (title author : String) (publisher : Int) (isbn : String)
    (year_published bid year : Int) :
    BookController.add_book dbFail s title author publisher isbn year_published =
      ⟨s, [], some (CtrlErr.pyErr PyErr.typeError)⟩ ∧
    BookController.update_book dbFail s bid title author publisher isbn year =
      ⟨s, [], some (CtrlErr.pyErr PyErr.typeError)⟩ := by
  exact ⟨rfl, rfl⟩

/-- C3: on execution failure every gateway read returns an empty result
(`[]`, or `None` for the single-record lookup) instead of raising, and
every gateway write raises its generic domain error exactly then — on
successful execution the writes return the new state. -/
theorem C3_failure_policy (s : DBState) (t a : String) (bid : Int) (b : Book) :
    Repository.fetchall_books true s = [] ∧
    Repository.list_book_by_name true s t = none ∧
    Repository.get_books_by_author true s a = [] ∧
    Repository.get_publisher true s = [] ∧
    Repository.get_all_members true s = [] ∧
    Repository.list_all_loan true s = [] ∧
    Repository.list_all_members_by_book true s t = [] ∧
    Repository.list_members_borrowed_at_least_one_book true s = [] ∧
    Repository.add_book true s b =
      Except.error (RepoErr.runtimeError "Failed to add book.") ∧
    Repository.update_book true s b =
      Except.error (RepoErr.runtimeError "Failed to update book.") ∧
    Repository.delete_book_by_id true s bid =
      Except.error (RepoErr.runtimeError "Failed to delete book.") ∧
    (∃ s2, Repository.add_book false s b = Except.ok s2) ∧
    (∃ s2, Repository.update_book false s b = Except.ok s2) ∧
    (∃ s2, Repository.delete_book_by_id false s bid = Except.ok s2) := by
  refine ⟨rfl, rfl, rfl, rfl, rfl, rfl, rfl, rfl, rfl, rfl, rfl,
          ⟨_, rfl⟩, ⟨_, rfl⟩, ⟨_, rfl⟩⟩

/-- C10: both controller methods hardcode `genre_id=1` in the keyword
arguments of their `Book(...)` call, so every book value the controller
passes to the gateway carries `genre_id = 1` (construction in fact raises,
so the list of passed books is empty — see C2 — and the hardcoded keyword
argument is the value that would be passed). -/
theorem C10_genre_id_default_one (dbFail : Bool) (s : DBState)
    (title author : String) (publisher : Int) (isbn : String)
    (year_published bid year : Int) :
    lookupKw (addBookKwargs title author publisher isbn year_published)
      "genre_id" = some (PyValue.vint 1) ∧
    lookupKw (updateBookKwargs bid title author publisher isbn year)
      "genre_id" = some (PyValue.vint 1) ∧
    (BookController.add_book dbFail s title author publisher isbn
        year_published).passedBooks.all (fun b => b.genre_id == 1) = true ∧
    (BookController.update_book dbFail s bid title author publisher isbn
        year).passedBooks.all (fun b => b.genre_id == 1) = true := by
  exact ⟨rfl, rfl, rfl, rfl⟩

/-- C8: `list_book_by_name` returns the first stored record whose title
exactly equals the argument (mapped through `Book(*row)`), and `None` when
no stored book has that title. -/
theorem C8_find_book_by_title (s : DBState) (t : String) :
    ((∀ r ∈ s.book, r.title ≠ t) →
      Repository.list_book_by_name false s t = none) ∧
    (∀ l1 r l2, s.book = l1 ++ r :: l2 → r.title = t →
      (∀ x ∈ l1, x.title ≠ t) →
      Repository.list_book_by_name false s t =
        some ⟨r.book_id, r.title, r.isbn, r.pub_year, r.genre_id,
              r.publisher_id⟩) := by
  constructor
  · intro h
    unfold Repository.list_book_by_name
    have hf : s.book.filter (fun r => r.title == t) = [] := by
      rw [List.filter_eq_nil_iff]
      intro a ha
      simp only [beq_iff_eq]
      exact h a ha
    simp [hf]
  · intro l1 r l2 hs hr hl1
    unfold Repository.list_book_by_name
    have h1 : l1.filter (fun x => x.title == t) = [] := by
      rw [List.filter_eq_nil_iff]
      intro a ha
      simp only [beq_iff_eq]
      exact hl1 a ha
    have hf : s.book.filter (fun x => x.title == t) =
        r :: l2.filter (fun x => x.title == t) := by
      rw [hs, List.filter_append, h1, List.nil_append, List.filter_cons,
          if_pos (by simp [hr])]
    rw [hf]
    simp [bookFromArgs_bookRowArgs]

/-- A two-book state used to exercise the title lookup. -/
def c8state : DBState :=
  { emptyDB with
    book := [⟨1, "Dune", "111", 1965, 1, 1⟩, ⟨2, "Emma", "222", 1815, 1, 2⟩],
    next_book_id := 3 }

/-- Witness for C8 at a concrete state: the title "Emma" is held only by the
second row, and the lookup returns exactly that record. -/
theorem C8_find_book_by_title_witness :
    Repository.list_book_by_name false c8state "Emma" =
      some ⟨2, "Emma", "222", 1815, 1, 2⟩ :=
  (C8_find_book_by_title c8state "Emma").2
    [⟨1, "Dune", "111", 1965, 1, 1⟩] ⟨2, "Emma", "222", 1815, 1, 2⟩ []
    rfl rfl (by decide)

/-- A one-book state whose single title is "T". -/
def c4state : DBState :=
  { emptyDB with book := [⟨1, "T", "AAA", 2000, 1, 1⟩], next_book_id := 2 }

/-- The book value inserted in the C4 counterexample: same title "T" as the
stored row but different isbn, pub_year, genre_id and publisher_id. -/
def c4book : Book := ⟨0, "T", "BBB", 2001, 2, 3⟩

/-- The state after inserting `c4book` into `c4state`. -/
def c4state2 : DBState :=
  { emptyDB with
    book := [⟨1, "T", "AAA", 2000, 1, 1⟩, ⟨2, "T", "BBB", 2001, 2, 3⟩],
    next_book_id := 3 }

/-- C4 counterexample: with a book titled "T" already stored, inserting a
second book titled "T" and fetching by that title returns the OLD record
(the first match), whose isbn "AAA" differs from the inserted isbn "BBB" —
so the claimed round trip fails for this book value and database state. -/
theorem C4_round_trip_counterexample :
    Repository.add_book false c4state c4book = Except.ok c4state2 ∧
    (Repository.list_book_by_name false c4state2 c4book.title).map
      (fun b => b.isbn) = some "AAA" ∧
    c4book.isbn = "BBB" ∧ "AAA" ≠ "BBB" := by
  refine ⟨rfl, rfl, rfl, by decide⟩

/-- C4 (amended): provided no stored book already has the inserted title,
inserting via `add_book` and fetching by that title returns a record whose
title, isbn, pub_year, genre_id and publisher_id equal the inserted values,
and whose id is the storage-assigned key (`next_book_id`) — the book's own
`id` field is ignored by the insert. -/
theorem C4_round_trip (s : DBState) (b : Book)
    (h : ∀ r ∈ s.book, r.title ≠ b.title) :
    ∃ s2, Repository.add_book false s b = Except.ok s2 ∧
      Repository.list_book_by_name false s2 b.title =
        some ⟨s.next_book_id, b.title, b.isbn, b.pub_year, b.genre_id,
              b.publisher_id⟩ := by
  refine ⟨_, rfl, ?_⟩
  unfold Repository.list_book_by_name
  have h1 : s.book.filter (fun x => x.title == b.title) = [] := by
    rw [List.filter_eq_nil_iff]
    intro a ha
    simp only [beq_iff_eq]
    exact h a ha
  have hf : (s.book ++
      [(⟨s.next_book_id, b.title, b.isbn, b.pub_year, b.genre_id,
         b.publisher_id⟩ : BookRow)]).filter (fun x => x.title == b.title) =
      [⟨s.next_book_id, b.title, b.isbn, b.pub_year, b.genre_id,
        b.publisher_id⟩] := by
    rw [List.filter_append, h1, List.nil_append, List.filter_cons,
        if_pos (by simp)]
    rfl
  simp only [Bool.false_eq_true, if_false]
  rw [hf]
  simp [bookFromArgs_bookRowArgs]

/-- Witness for C4 (amended) at a concrete input: inserting `c4book` into
the empty database and fetching by its title returns the inserted field
values under the storage-assigned id. -/
theorem C4_round_trip_witness :
    ∃ s2, Repository.add_book false emptyDB c4book = Except.ok s2 ∧
      Repository.list_book_by_name false s2 c4book.title =
        some ⟨emptyDB.next_book_id, c4book.title, c4book.isbn,
              c4book.pub_year, c4book.genre_id, c4book.publisher_id⟩ :=
  C4_round_trip emptyDB c4book (by intro r hr; simp [emptyDB] at hr)

/-- C5: `update_book` with an id matching no stored row succeeds and leaves
the whole state unchanged (silent no-op); with an id matching one row
(all other rows carrying different ids) it overwrites exactly that row's
title, isbn, pub_year, genre_id and publisher_id, keeping its key and every
other row; and it raises the generic domain error exactly when the query
execution fails. -/
theorem C5_update_book_semantics (s : DBState) (b : Book) :
    ((∀ r ∈ s.book, r.book_id ≠ b.id) →
      Repository.update_book false s b = Except.ok s) ∧
    (∀ l1 r l2, s.book = l1 ++ r :: l2 → r.book_id = b.id →
      (∀ x ∈ l1 ++ l2, x.book_id ≠ b.id) →
      Repository.update_book false s b =
        Except.ok { s with book := l1 ++
          ⟨r.book_id, b.title, b.isbn, b.pub_year, b.genre_id,
           b.publisher_id⟩ :: l2 }) ∧
    Repository.update_book true s b =
      Except.error (RepoErr.runtimeError "Failed to update book.") ∧
    (∃ s2, Repository.update_book false s b = Except.ok s2) := by
  refine ⟨?_, ?_, rfl, ⟨_, rfl⟩⟩
  · intro h
    unfold Repository.update_book
    simp only [Bool.false_eq_true, if_false]
    have hm : s.book.map (fun r =>
        if r.book_id == b.id then
          (⟨r.book_id, b.title, b.isbn, b.pub_year, b.genre_id,
            b.publisher_id⟩ : BookRow)
        else r) = s.book := by
      conv_rhs => rw [← List.map_id s.book]
      apply List.map_congr_left
      intro r hr
      have hne : (r.book_id == b.id) = false := by
        simp only [beq_eq_false_iff_ne]
        exact h r hr
      simp [hne]
    rw [hm]
  · intro l1 r l2 hs hr hother
    unfold Repository.update_book
    simp only [Bool.false_eq_true, if_false]
    have hl1 : l1.map (fun x =>
        if x.book_id == b.id then
          (⟨x.book_id, b.title, b.isbn, b.pub_year, b.genre_id,
            b.publisher_id⟩ : BookRow)
        else x) = l1 := by
      conv_rhs => rw [← List.map_id l1]
      apply List.map_congr_left
      intro x hx
      have hne : (x.book_id == b.id) = false := by
        simp only [beq_eq_false_iff_ne]
        exact hother x (List.mem_append_left l2 hx)
      simp [hne]
    have hl2 : l2.map (fun x =>
        if x.book_id == b.id then
          (⟨x.book_id, b.title, b.isbn, b.pub_year, b.genre_id,
            b.publisher_id⟩ : BookRow)
        else x) = l2 := by
      conv_rhs => rw [← List.map_id l2]
      apply List.map_congr_left
      intro x hx
      have hne : (x.book_id == b.id) = false := by
        simp only [beq_eq_false_iff_ne]
        exact hother x (List.mem_append_right l1 hx)
      simp [hne]
    rw [hs, List.map_append, List.map_cons, hl1, hl2, if_pos (by simp [hr])]

/-- The first stored row of the two-book update/delete example state. -/
def c5row1 : BookRow := ⟨1, "Dune", "111", 1965, 1, 1⟩

/-- The second stored row of the two-book update/delete example state. -/
def c5row2 : BookRow := ⟨2, "Emma", "222", 1815, 1, 2⟩

/-- A two-book state used to exercise update and delete. -/
def c5state : DBState :=
  { emptyDB with book := [c5row1, c5row2], next_book_id := 3 }

/-- The updated field values applied to the row with id 2. -/
def c5book : Book := ⟨2, "Emma2", "999", 1999, 4, 5⟩

/-- Witness for C5 at a concrete input: updating id 2 in the two-book state
rewrites exactly the second row's mutable fields and keeps the first row. -/
theorem C5_update_book_witness :
    Repository.update_book false c5state c5book =
      Except.ok { c5state with
        book := [c5row1, ⟨2, "Emma2", "999", 1999, 4, 5⟩] } :=
  (C5_update_book_semantics c5state c5book).2.1 [c5row1] c5row2 []
    rfl rfl (by decide)

/-- C9: a successful `delete_book_by_id` leaves a state in which no book row
carries the deleted id — so the (spec-modelled) fetch by that id returns
"not found" — while every row with a different id survives, nothing new
appears, and all other tables are untouched. -/
theorem C9_delete_book (s : DBState) (bid : Int) :
    ∃ s2, Repository.delete_book_by_id false s bid = Except.ok s2 ∧
      find_book_by_id s2 bid = none ∧
      (∀ r ∈ s2.book, r ∈ s.book ∧ r.book_id ≠ bid) ∧
      (∀ r ∈ s.book, r.book_id ≠ bid → r ∈ s2.book) ∧
      s2.author = s.author ∧ s2.book_author = s.book_author ∧
      s2.publisher = s.publisher ∧ s2.members = s.members ∧
      s2.loan = s.loan ∧ s2.book_copy = s.book_copy := by
  refine ⟨_, rfl, ?_, ?_, ?_, rfl, rfl, rfl, rfl, rfl, rfl⟩
  · unfold find_book_by_id
    have : (s.book.filter (fun r => !(r.book_id == bid))).filter
        (fun r => r.book_id == bid) = [] := by
      rw [List.filter_eq_nil_iff]
      intro a ha
      have := (List.mem_filter.mp ha).2
      simp only [Bool.not_eq_eq_eq_not, Bool.not_true, beq_eq_false_iff_ne] at this
      simp only [beq_iff_eq]
      exact this
    simp only [this, List.head?_nil]
  · intro r hr
    have := List.mem_filter.mp hr
    refine ⟨this.1, ?_⟩
    have h2 := this.2
    simpa using h2
  · intro r hr hne
    apply List.mem_filter.mpr
    refine ⟨hr, ?_⟩
    simpa using hne

/-- Witness for C9 at a concrete input: deleting id 1 from the two-book
state removes the "Dune" row and keeps the "Emma" row. -/
theorem C9_delete_book_witness :
    ∃ s2, Repository.delete_book_by_id false c5state 1 = Except.ok s2 ∧
      find_book_by_id s2 1 = none ∧
      (∀ r ∈ s2.book, r ∈ c5state.book ∧ r.book_id ≠ 1) ∧
      (∀ r ∈ c5state.book, r.book_id ≠ 1 → r ∈ s2.book) ∧
      s2.author = c5state.author ∧ s2.book_author = c5state.book_author ∧
      s2.publisher = c5state.publisher ∧ s2.members = c5state.members ∧
      s2.loan = c5state.loan ∧ s2.book_copy = c5state.book_copy :=
  C9_delete_book c5state 1

theorem mem_membersByBookRows {s : DBState} {bid : Int} {row : MemberLoanRow} :
    row ∈ membersByBookRows s bid ↔
      ∃ m ∈ s.members, ∃ l ∈ s.loan, ∃ bc ∈ s.book_copy, ∃ b ∈ s.book,
        m.member_id = l.member_id ∧ l.copy_id = bc.copy_id ∧
        bc.book_id = b.book_id ∧ b.book_id = bid ∧
        row = ⟨m.first_name, m.last_name, b.title, l.issue_date, l.due_date,
               l.return_date⟩ := by
  unfold membersByBookRows
  constructor
  · intro hrow
    rw [List.mem_flatMap] at hrow
    obtain ⟨m, hm, hrow⟩ := hrow
    rw [List.mem_flatMap] at hrow
    obtain ⟨l, hl, hrow⟩ := hrow
    by_cases hml : (m.member_id == l.member_id) = true
    · rw [if_pos hml] at hrow
      rw [List.mem_flatMap] at hrow
      obtain ⟨bc, hbc, hrow⟩ := hrow
      by_cases hcb : (l.copy_id == bc.copy_id) = true
      · rw [if_pos hcb] at hrow
        rw [List.mem_filterMap] at hrow
        obtain ⟨b, hb, heq⟩ := hrow
        by_cases hbb : (bc.book_id == b.book_id && b.book_id == bid) = true
        · rw [if_pos hbb] at heq
          obtain ⟨h1, h2⟩ := Bool.and_eq_true_iff.mp hbb
          exact ⟨m, hm, l, hl, bc, hbc, b, hb, beq_iff_eq.mp hml,
                 beq_iff_eq.mp hcb, beq_iff_eq.mp h1, beq_iff_eq.mp h2,
                 (Option.some_inj.mp heq).symm⟩
        · rw [if_neg hbb] at heq
          exact absurd heq (by simp)
      · rw [if_neg hcb] at hrow
        exact absurd hrow (List.not_mem_nil row)
    · rw [if_neg hml] at hrow
      exact absurd hrow (List.not_mem_nil row)
  · rintro ⟨m, hm, l, hl, bc, hbc, b, hb, h1, h2, h3, h4, h5⟩
    rw [List.mem_flatMap]
    refine ⟨m, hm, ?_⟩
    rw [List.mem_flatMap]
    refine ⟨l, hl, ?_⟩
    rw [if_pos (by simp [h1])]
    rw [List.mem_flatMap]
    refine ⟨bc, hbc, ?_⟩
    rw [if_pos (by simp [h2])]
    rw [List.mem_filterMap]
    refine ⟨b, hb, ?_⟩
    rw [if_pos (by simp [h3, h4])]
    rw [h5]

/-- C7: `list_all_members_by_book` first resolves the title through
`list_book_by_name`; an unresolved title yields `[]` without raising, and a
resolved title yields exactly the rows of the members/loan/book_copy/book
join restricted to the resolved book id. -/
theorem C7_members_for_book (s : DBState) (t : String) :
    (Repository.list_book_by_name false s t = none →
      Repository.list_all_members_by_book false s t = []) ∧
    (∀ bk, Repository.list_book_by_name false s t = some bk →
      ∀ row, row ∈ Repository.list_all_members_by_book false s t ↔
        ∃ m ∈ s.members, ∃ l ∈ s.loan, ∃ bc ∈ s.book_copy, ∃ b ∈ s.book,
          m.member_id = l.member_id ∧ l.copy_id = bc.copy_id ∧
          bc.book_id = b.book_id ∧ b.book_id = bk.id ∧
          row = ⟨m.first_name, m.last_name, b.title, l.issue_date,
                 l.due_date, l.return_date⟩) := by
  constructor
  · intro h
    unfold Repository.list_all_members_by_book
    rw [h]
  · intro bk hbk row
    unfold Repository.list_all_members_by_book
    rw [hbk]
    simp only [Bool.false_eq_true, if_false]
    exact mem_membersByBookRows

/-- A state with one member, one loan, one copy and one book wired
together, used to exercise the loan-related queries. -/
def c6state : DBState :=
  { emptyDB with
    book := [⟨1, "Dune", "111", 1965, 1, 1⟩],
    members := [⟨7, "Ada", "Lovelace", "addr", "ada@x", "2020-01-01"⟩],
    loan := [⟨100, 50, 7, 1, 1, "2024-01-01", "2024-02-01", none⟩],
    book_copy := [⟨50, 1⟩],
    next_book_id := 2 }

/-- Witness for C7 at a concrete input: a title that resolves to no book
yields the empty sequence. -/
theorem C7_members_for_book_witness :
    Repository.list_all_members_by_book false c6state "Nonexistent Title" =
      [] :=
  (C7_members_for_book c6state "Nonexistent Title").1 (by decide)

/-- C6: every tuple returned by `list_members_borrowed_at_least_one_book`
is the `(member_id, first_name, last_name)` of a stored member having at
least one loan row with that member's id (so no member with zero loan rows
is ever returned), the returned tuples are pairwise distinct, and every
member with at least one loan row appears. -/
theorem C6_members_with_any_loan (s : DBState) :
    (Repository.list_members_borrowed_at_least_one_book false s).Nodup ∧
    (∀ tp ∈ Repository.list_members_borrowed_at_least_one_book false s,
      ∃ m ∈ s.members, ∃ l ∈ s.loan,
        m.member_id = l.member_id ∧
        tp = (m.member_id, m.first_name, m.last_name)) ∧
    (∀ m ∈ s.members, ∀ l ∈ s.loan, l.member_id = m.member_id →
      (m.member_id, m.first_name, m.last_name) ∈
        Repository.list_members_borrowed_at_least_one_book false s) := by
  unfold Repository.list_members_borrowed_at_least_one_book
  simp only [Bool.false_eq_true, if_false]
  refine ⟨List.nodup_dedup _, ?_, ?_⟩
  · intro tp htp
    rw [List.mem_dedup, List.mem_flatMap] at htp
    obtain ⟨m, hm, htp⟩ := htp
    rw [List.mem_filterMap] at htp
    obtain ⟨l, hl, heq⟩ := htp
    by_cases hml : (m.member_id == l.member_id) = true
    · rw [if_pos hml] at heq
      exact ⟨m, hm, l, hl, beq_iff_eq.mp hml, (Option.some_inj.mp heq).symm⟩
    · rw [if_neg hml] at heq
      exact absurd heq (by simp)
  · intro m hm l hl hml
    rw [List.mem_dedup, List.mem_flatMap]
    refine ⟨m, hm, ?_⟩
    rw [List.mem_filterMap]
    refine ⟨l, hl, ?_⟩
    rw [if_pos (by simp [hml])]

/-- Witness for C6 at a concrete input: the single member with a loan row
is returned. -/
theorem C6_members_with_any_loan_witness :
    ((7 : Int), "Ada", "Lovelace") ∈
      Repository.list_members_borrowed_at_least_one_book false c6state :=
  (C6_members_with_any_loan c6state).2.2
    ⟨7, "Ada", "Lovelace", "addr", "ada@x", "2020-01-01"⟩ (by decide)
    ⟨100, 50, 7, 1, 1, "2024-01-01", "2024-02-01", none⟩ (by decide) rfl
